import Mathlib

/-!
Shallow embedding of `airflow/contrib/hooks/wasb_hook.py`: the two thin
connection adapters `WasbHook` (Azure Blob Storage) and `FileShareHook`
(Azure File Share).  Every hook method is a direct delegation to a method
of the vendor client object stored in `self.connection`; the vendor client
itself lives outside the repository, so its behaviour is supplied as a
record of operations (`BlobServiceOps` / `FileServiceOps`), and concrete
instantiations (a recording stub, a store model and an error-raising stub)
are used to settle the properties.
-/

/-- Free-form keyword-options mapping (`**kwargs` / the connection's
`extra` options), passed through verbatim everywhere. -/
abbrev Kwargs := List (String × String)

/-- A connection record of the external registry: `login` (account name),
`password` (account key) and the parsed `extra` options
(`conn.extra_dejson`). -/
structure Connection where
  login : String
  password : String
  extra_dejson : Kwargs
deriving DecidableEq, Repr

/-- Failure mode of the connection lookup. -/
inductive LookupErr where
  | connNotFound (conn_id : String)
deriving DecidableEq, Repr

/-- Modelled from the spec: `BaseHook.get_connection` (the external
connection registry collaborator, not part of `src/`) exposes
`lookup(id) -> {login, password, extra}` and fails with a lookup error
when the named connection identifier is not registered.  The registry is
modelled as an association list from identifiers to connection records. -/
def get_connection (registry : List (String × Connection)) (conn_id : String) :
    Except LookupErr Connection :=
  match registry.lookup conn_id with
  | some conn => .ok conn
  | none => .error (.connNotFound conn_id)

/-- The vendor blob client handle (`azure.storage.blob.BlockBlobService`):
the constructor arguments it was built from.  Its behaviour is external
and is supplied separately as `BlobServiceOps`. -/
structure BlockBlobService where
  account_name : String
  account_key : String
  options : Kwargs
deriving DecidableEq, Repr

/-- The vendor file-share client handle (`azure.storage.file.FileService`). -/
structure FileService where
  account_name : String
  account_key : String
  options : Kwargs
deriving DecidableEq, Repr

/-- Vendor blob metadata object returned by downloads and uploads
(`Blob` / `ResourceProperties` in the vendor SDK). -/
structure Blob where
  name : String
  content : String
deriving DecidableEq, Repr

/-- Vendor file metadata object (`File` in the vendor SDK). -/
structure AzureFile where
  name : String
  content : String
deriving DecidableEq, Repr

/-- Behaviour of the vendor blob client: one operation per vendor method
the adapter calls, each taking the client handle (the receiver of the
Python method call), the positional arguments in the vendor's order, the
passed-through kwargs and an external-world state `σ`, and either failing
with a vendor error `ε` or returning the new state and the vendor result.
The `exists_` field models `BlockBlobService.exists`. -/
structure BlobServiceOps (ε σ : Type) where
  exists_ : BlockBlobService → String → String → Kwargs → σ → Except ε (σ × Bool)
  list_blobs : BlockBlobService → String → String → Nat → Kwargs → σ → Except ε (σ × List String)
  get_blob_to_path : BlockBlobService → String → String → String → Kwargs → σ → Except ε (σ × Blob)
  get_blob_to_stream : BlockBlobService → String → String → String → Kwargs → σ → Except ε (σ × Blob)
  create_blob_from_path : BlockBlobService → String → String → String → Kwargs → σ → Except ε (σ × Blob)
  create_blob_from_text : BlockBlobService → String → String → String → Kwargs → σ → Except ε (σ × Blob)

/-- Behaviour of the vendor file-share client.  The `exists_` field models
`FileService.exists(share_name, directory_name=None, file_name=None)`. -/
structure FileServiceOps (ε σ : Type) where
  exists_ : FileService → String → Option String → Option String → Kwargs → σ → Except ε (σ × Bool)
  get_file_to_path : FileService → String → String → String → String → Kwargs → σ → Except ε (σ × AzureFile)
  get_file_to_stream : FileService → String → String → String → String → Kwargs → σ → Except ε (σ × AzureFile)
  create_file_from_path : FileService → String → String → String → String → Kwargs → σ → Except ε (σ × AzureFile)
  create_file_from_text : FileService → String → String → String → String → Kwargs → σ → Except ε (σ × AzureFile)

/-- Event emitted during adapter construction: a registry lookup or a
vendor client construction.  Shared by both adapter variants (both client
constructors take account name, account key and the extra options). -/
inductive InitEvent where
  | lookup (conn_id : String)
  | build_client (account_name : String) (account_key : String) (options : Kwargs)
deriving DecidableEq, Repr

/-- The blob adapter instance: `self.conn_id` and the one vendor client
bound at construction (`self.connection`). -/
structure WasbHook where
  conn_id : String
  connection : BlockBlobService
deriving DecidableEq, Repr

/-- `WasbHook.get_conn`: resolve the connection record and build the
`BlockBlobService` from `conn.login`, `conn.password` and
`conn.extra_dejson`.  Also returns the trace of construction events. -/
def WasbHook.get_conn (registry : List (String × Connection)) (conn_id : String) :
    List InitEvent × Except LookupErr BlockBlobService :=
  match get_connection registry conn_id with
  | .error e => ([.lookup conn_id], .error e)
  | .ok conn =>
      ([.lookup conn_id, .build_client conn.login conn.password conn.extra_dejson],
       .ok ⟨conn.login, conn.password, conn.extra_dejson⟩)

/-- `WasbHook.__init__(wasb_conn_id)`: store the identifier and bind
`self.connection = self.get_conn()`. -/
def WasbHook.init (registry : List (String × Connection)) (wasb_conn_id : String) :
    List InitEvent × Except LookupErr WasbHook :=
  match WasbHook.get_conn registry wasb_conn_id with
  | (evs, .error e) => (evs, .error e)
  | (evs, .ok client) => (evs, .ok ⟨wasb_conn_id, client⟩)

/-- `WasbHook()` with no argument: the Python default
`wasb_conn_id='wasb_default'`. -/
def WasbHook.initDefault (registry : List (String × Connection)) :
    List InitEvent × Except LookupErr WasbHook :=
  WasbHook.init registry "wasb_default"

/-- `WasbHook.check_for_blob`: `return self.connection.exists(container_name, blob_name, **kwargs)`. -/
def WasbHook.check_for_blob (ops : BlobServiceOps ε σ) (self : WasbHook)
    (container_name blob_name : String) (kwargs : Kwargs) (s : σ) :
    Except ε (σ × Bool) :=
  ops.exists_ self.connection container_name blob_name kwargs s

/-- `WasbHook.check_for_prefix`: list blobs with `num_results=1` and
return `len(list(matches)) > 0`. -/
def WasbHook.check_for_prefix (ops : BlobServiceOps ε σ) (self : WasbHook)
    (container_name pfx : String) (kwargs : Kwargs) (s : σ) :
    Except ε (σ × Bool) :=
  match ops.list_blobs self.connection container_name pfx 1 kwargs s with
  | .error e => .error e
  | .ok (s1, ms) => .ok (s1, decide (ms.length > 0))

/-- `WasbHook.get_blob_to_path`: `return self.connection.get_blob_to_path(container_name, blob_name, file_path, **kwargs)`. -/
def WasbHook.get_blob_to_path (ops : BlobServiceOps ε σ) (self : WasbHook)
    (container_name blob_name file_path : String) (kwargs : Kwargs) (s : σ) :
    Except ε (σ × Blob) :=
  ops.get_blob_to_path self.connection container_name blob_name file_path kwargs s

/-- `WasbHook.get_blob_to_stream`: `return self.connection.get_blob_to_stream(container_name, blob_name, stream, **kwargs)`. -/
def WasbHook.get_blob_to_stream (ops : BlobServiceOps ε σ) (self : WasbHook)
    (container_name blob_name stream : String) (kwargs : Kwargs) (s : σ) :
    Except ε (σ × Blob) :=
  ops.get_blob_to_stream self.connection container_name blob_name stream kwargs s

/-- `WasbHook.load_file`: `self.connection.create_blob_from_path(container_name, blob_name, file_path, **kwargs)`
with the vendor return value discarded (the method returns `None`). -/
def WasbHook.load_file (ops : BlobServiceOps ε σ) (self : WasbHook)
    (file_path container_name blob_name : String) (kwargs : Kwargs) (s : σ) :
    Except ε (σ × Unit) :=
  match ops.create_blob_from_path self.connection container_name blob_name file_path kwargs s with
  | .error e => .error e
  | .ok (s1, _) => .ok (s1, ())

/-- `WasbHook.load_string`: `self.connection.create_blob_from_text(container_name, blob_name, string_data, **kwargs)`
with the vendor return value discarded. -/
def WasbHook.load_string (ops : BlobServiceOps ε σ) (self : WasbHook)
    (string_data container_name blob_name : String) (kwargs : Kwargs) (s : σ) :
    Except ε (σ × Unit) :=
  match ops.create_blob_from_text self.connection container_name blob_name string_data kwargs s with
  | .error e => .error e
  | .ok (s1, _) => .ok (s1, ())

/-- The file-share adapter instance: `self.conn_id` and the one vendor
client bound at construction. -/
structure FileShareHook where
  conn_id : String
  connection : FileService
deriving DecidableEq, Repr

/-- `FileShareHook.get_conn`: resolve the connection record and build the
`FileService` from `conn.login`, `conn.password` and `conn.extra_dejson`. -/
def FileShareHook.get_conn (registry : List (String × Connection)) (conn_id : String) :
    List InitEvent × Except LookupErr FileService :=
  match get_connection registry conn_id with
  | .error e => ([.lookup conn_id], .error e)
  | .ok conn =>
      ([.lookup conn_id, .build_client conn.login conn.password conn.extra_dejson],
       .ok ⟨conn.login, conn.password, conn.extra_dejson⟩)

/-- `FileShareHook.__init__(wasb_conn_id)`: store the identifier and bind
`self.connection = self.get_conn()`. -/
def FileShareHook.init (registry : List (String × Connection)) (wasb_conn_id : String) :
    List InitEvent × Except LookupErr FileShareHook :=
  match FileShareHook.get_conn registry wasb_conn_id with
  | (evs, .error e) => (evs, .error e)
  | (evs, .ok client) => (evs, .ok ⟨wasb_conn_id, client⟩)

/-- `FileShareHook()` with no argument: the Python default
`wasb_conn_id='wasb_default'`. -/
def FileShareHook.initDefault (registry : List (String × Connection)) :
    List InitEvent × Except LookupErr FileShareHook :=
  FileShareHook.init registry "wasb_default"

/-- `FileShareHook.check_for_file(share_name, directory_name=None, file_name=None)`:
`return self.connection.exists(share_name, directory_name, file_name, **kwargs)`. -/
def FileShareHook.check_for_file (ops : FileServiceOps ε σ) (self : FileShareHook)
    (share_name : String) (directory_name file_name : Option String) (kwargs : Kwargs) (s : σ) :
    Except ε (σ × Bool) :=
  ops.exists_ self.connection share_name directory_name file_name kwargs s

/-- `FileShareHook.get_file_to_path`: `return self.connection.get_file_to_path(share_name, directory_name, file_name, file_path, **kwargs)`. -/
def FileShareHook.get_file_to_path (ops : FileServiceOps ε σ) (self : FileShareHook)
    (share_name directory_name file_name file_path : String) (kwargs : Kwargs) (s : σ) :
    Except ε (σ × AzureFile) :=
  ops.get_file_to_path self.connection share_name directory_name file_name file_path kwargs s

/-- `FileShareHook.get_file_to_stream`: `return self.connection.get_file_to_stream(share_name, directory_name, file_name, stream, **kwargs)`. -/
def FileShareHook.get_file_to_stream (ops : FileServiceOps ε σ) (self : FileShareHook)
    (share_name directory_name file_name stream : String) (kwargs : Kwargs) (s : σ) :
    Except ε (σ × AzureFile) :=
  ops.get_file_to_stream self.connection share_name directory_name file_name stream kwargs s

/-- `FileShareHook.load_file`: `self.connection.create_file_from_path(share_name, directory_name, file_name, file_path, **kwargs)`
with the vendor return value discarded (the method returns `None`). -/
def FileShareHook.load_file (ops : FileServiceOps ε σ) (self : FileShareHook)
    (file_path share_name directory_name file_name : String) (kwargs : Kwargs) (s : σ) :
    Except ε (σ × Unit) :=
  match ops.create_file_from_path self.connection share_name directory_name file_name file_path kwargs s with
  | .error e => .error e
  | .ok (s1, _) => .ok (s1, ())

/-- `FileShareHook.load_string`: `self.connection.create_file_from_text(share_name, directory_name, file_name, string_data, **kwargs)`
with the vendor return value discarded. -/
def FileShareHook.load_string (ops : FileServiceOps ε σ) (self : FileShareHook)
    (string_data share_name directory_name file_name : String) (kwargs : Kwargs) (s : σ) :
    Except ε (σ × Unit) :=
  match ops.create_file_from_text self.connection share_name directory_name file_name string_data kwargs s with
  | .error e => .error e
  | .ok (s1, _) => .ok (s1, ())

/-- One recorded vendor blob call: the client handle it was made on
(the receiver), the vendor method and its positional arguments in the
vendor's order, and the passed-through kwargs. -/
inductive BlobCall where
  | exists_ (client : BlockBlobService) (container_name blob_name : String) (kwargs : Kwargs)
  | list_blobs (client : BlockBlobService) (container_name pfx : String) (num_results : Nat) (kwargs : Kwargs)
  | get_blob_to_path (client : BlockBlobService) (container_name blob_name file_path : String) (kwargs : Kwargs)
  | get_blob_to_stream (client : BlockBlobService) (container_name blob_name stream : String) (kwargs : Kwargs)
  | create_blob_from_path (client : BlockBlobService) (container_name blob_name file_path : String) (kwargs : Kwargs)
  | create_blob_from_text (client : BlockBlobService) (container_name blob_name string_data : String) (kwargs : Kwargs)
deriving DecidableEq, Repr

/-- One recorded vendor file-share call. -/
inductive FileCall where
  | exists_ (client : FileService) (share_name : String) (directory_name file_name : Option String) (kwargs : Kwargs)
  | get_file_to_path (client : FileService) (share_name directory_name file_name file_path : String) (kwargs : Kwargs)
  | get_file_to_stream (client : FileService) (share_name directory_name file_name stream : String) (kwargs : Kwargs)
  | create_file_from_path (client : FileService) (share_name directory_name file_name file_path : String) (kwargs : Kwargs)
  | create_file_from_text (client : FileService) (share_name directory_name file_name string_data : String) (kwargs : Kwargs)
deriving DecidableEq, Repr

/-- Recording stub vendor blob client: every operation appends the exact
call it received to the trace and succeeds with a fixed dummy result. -/
def recordingBlobOps : BlobServiceOps Empty (List BlobCall) where
  exists_ := fun cl c n k s => .ok (s ++ [.exists_ cl c n k], false)
  list_blobs := fun cl c pfx num k s => .ok (s ++ [.list_blobs cl c pfx num k], [])
  get_blob_to_path := fun cl c n p k s => .ok (s ++ [.get_blob_to_path cl c n p k], ⟨n, ""⟩)
  get_blob_to_stream := fun cl c n st k s => .ok (s ++ [.get_blob_to_stream cl c n st k], ⟨n, ""⟩)
  create_blob_from_path := fun cl c n p k s => .ok (s ++ [.create_blob_from_path cl c n p k], ⟨n, ""⟩)
  create_blob_from_text := fun cl c n d k s => .ok (s ++ [.create_blob_from_text cl c n d k], ⟨n, ""⟩)

/-- Recording stub vendor file-share client. -/
def recordingFileOps : FileServiceOps Empty (List FileCall) where
  exists_ := fun cl sh d f k s => .ok (s ++ [.exists_ cl sh d f k], false)
  get_file_to_path := fun cl sh d f p k s => .ok (s ++ [.get_file_to_path cl sh d f p k], ⟨f, ""⟩)
  get_file_to_stream := fun cl sh d f st k s => .ok (s ++ [.get_file_to_stream cl sh d f st k], ⟨f, ""⟩)
  create_file_from_path := fun cl sh d f p k s => .ok (s ++ [.create_file_from_path cl sh d f p k], ⟨f, ""⟩)
  create_file_from_text := fun cl sh d f dt k s => .ok (s ++ [.create_file_from_text cl sh d f dt k], ⟨f, ""⟩)

/-- Error-raising stub vendor blob client: every operation fails with the
given vendor error `e` (of an arbitrary error type). -/
def raisingBlobOps (e : ε) : BlobServiceOps ε Unit where
  exists_ := fun _ _ _ _ _ => .error e
  list_blobs := fun _ _ _ _ _ _ => .error e
  get_blob_to_path := fun _ _ _ _ _ _ => .error e
  get_blob_to_stream := fun _ _ _ _ _ _ => .error e
  create_blob_from_path := fun _ _ _ _ _ _ => .error e
  create_blob_from_text := fun _ _ _ _ _ _ => .error e

/-- Error-raising stub vendor file-share client. -/
def raisingFileOps (e : ε) : FileServiceOps ε Unit where
  exists_ := fun _ _ _ _ _ _ => .error e
  get_file_to_path := fun _ _ _ _ _ _ _ => .error e
  get_file_to_stream := fun _ _ _ _ _ _ _ => .error e
  create_file_from_path := fun _ _ _ _ _ _ _ => .error e
  create_file_from_text := fun _ _ _ _ _ _ _ => .error e

/-- Store model of the vendor blob service's world: the cloud blob store
keyed by (container, blob name) — most recent entry first, `List.lookup`
returns the newest — and the local filesystem keyed by path. -/
structure AzureState where
  blobs : List ((String × String) × String)
  fs : List (String × String)
deriving DecidableEq, Repr

/-- Store-model vendor blob client: `exists` is membership, `list_blobs`
lists the blob names of the container that match the prefix capped at
`num_results`, downloads read the store (writing the local file / stream),
uploads write the store (reading the local file for `from_path`). -/
def storeBlobOps : BlobServiceOps String AzureState where
  exists_ := fun _ c n _ s => .ok (s, (s.blobs.lookup (c, n)).isSome)
  list_blobs := fun _ c pfx num _ s =>
    .ok (s, ((s.blobs.filter (fun e => e.1.1 == c && pfx.isPrefixOf e.1.2)).map (fun e => e.1.2)).take num)
  get_blob_to_path := fun _ c n path _ s =>
    match s.blobs.lookup (c, n) with
    | some content => .ok (AzureState.mk s.blobs ((path, content) :: s.fs), Blob.mk n content)
    | none => .error "BlobNotFound"
  get_blob_to_stream := fun _ c n _ _ s =>
    match s.blobs.lookup (c, n) with
    | some content => .ok (s, Blob.mk n content)
    | none => .error "BlobNotFound"
  create_blob_from_path := fun _ c n path _ s =>
    match s.fs.lookup path with
    | some content => .ok (AzureState.mk (((c, n), content) :: s.blobs) s.fs, Blob.mk n content)
    | none => .error "FileNotFound"
  create_blob_from_text := fun _ c n text _ s =>
    .ok (AzureState.mk (((c, n), text) :: s.blobs) s.fs, Blob.mk n text)

/-- Listing capped at one result is non-empty exactly when some element of
the underlying list satisfies the filter. -/
theorem take_one_of_filter_nonempty {α β : Type} (P : α → Bool) (f : α → β) (l : List α) :
    decide ((((l.filter P).map f).take 1).length > 0) = l.any P := by
  induction l with
  | nil => rfl
  | cons a l ih =>
      by_cases h : P a = true
      · rw [List.filter_cons, if_pos h, List.any_cons, h, Bool.true_or]
        rfl
      · have hb : P a = false := by simpa using h
        rw [List.filter_cons, if_neg h, List.any_cons, hb, Bool.false_or]
        exact ih

/-- C1: for every file path `p`, container `c`, blob name `n` and options
`k`, the blob adapter's `load_file(p, c, n, k)` performs exactly one
vendor call, `create_blob_from_path`, with positional arguments ordered
`(c, n, p)` and the options `k` passed through unchanged (observed on the
recording stub vendor client: exactly one call is appended to the trace). -/
theorem load_file_forwards_create_blob_from_path (self : WasbHook)
    (p c n : String) (k : Kwargs) (tr : List BlobCall) :
    WasbHook.load_file recordingBlobOps self p c n k tr =
      .ok (tr ++ [BlobCall.create_blob_from_path self.connection c n p k], ()) := rfl

/-- C2: `check_for_prefix(c, pfx, k)` issues exactly one vendor listing
call with `num_results = 1` (recording stub part), and on the store model
it returns `true` iff at least one stored blob of container `c` matches
the prefix — i.e. its value is `List.any` of the store, independent of how
many items share the prefix. -/
theorem check_for_prefix_requests_one_result (self : WasbHook)
    (c pfx : String) (k : Kwargs) (tr : List BlobCall) (s : AzureState) :
    WasbHook.check_for_prefix recordingBlobOps self c pfx k tr =
      .ok (tr ++ [BlobCall.list_blobs self.connection c pfx 1 k], false) ∧
    WasbHook.check_for_prefix storeBlobOps self c pfx k s =
      .ok (s, s.blobs.any (fun e => e.1.1 == c && pfx.isPrefixOf e.1.2)) := by
  refine ⟨rfl, ?_⟩
  show Except.ok (s, decide _) = _
  rw [take_one_of_filter_nonempty]

/-- C3: round-trip on the store model: after `load_string "hello" c "f.txt"`,
a `get_blob_to_path c "f.txt" tmp` succeeds and leaves a local file at
`tmp` whose contents equal `"hello"`. -/
theorem load_string_get_blob_round_trip (self : WasbHook)
    (c tmp : String) (s : AzureState) :
    ∃ s1 s2 b,
      WasbHook.load_string storeBlobOps self "hello" c "f.txt" [] s = .ok (s1, ()) ∧
      WasbHook.get_blob_to_path storeBlobOps self c "f.txt" tmp [] s1 = .ok (s2, b) ∧
      s2.fs.lookup tmp = some "hello" := by
  refine ⟨AzureState.mk (((c, "f.txt"), "hello") :: s.blobs) s.fs,
          AzureState.mk (((c, "f.txt"), "hello") :: s.blobs) ((tmp, "hello") :: s.fs),
          Blob.mk "f.txt" "hello", rfl, ?_, ?_⟩
  · simp [WasbHook.get_blob_to_path, storeBlobOps, List.lookup]
  · simp [List.lookup]

/-- C4: for a registered identifier, construction resolves the connection
record exactly once and builds exactly one vendor client from its login,
password and extra options — the whole construction event trace, for both
adapter variants, is one lookup followed by one client build, and the
bound client is the one built from that record.  Moreover every adapter
method routes its single vendor call to the adapter's bound client handle
(`hook.connection`), emitting no further lookup or client build: the
recorded trace grows by exactly one vendor call carrying that handle. -/
theorem construct_binds_client_once (registry : List (String × Connection))
    (conn_id : String) (conn : Connection)
    (h : registry.lookup conn_id = some conn) :
    WasbHook.init registry conn_id =
      ([InitEvent.lookup conn_id,
        InitEvent.build_client conn.login conn.password conn.extra_dejson],
       .ok (WasbHook.mk conn_id
              (BlockBlobService.mk conn.login conn.password conn.extra_dejson))) ∧
    FileShareHook.init registry conn_id =
      ([InitEvent.lookup conn_id,
        InitEvent.build_client conn.login conn.password conn.extra_dejson],
       .ok (FileShareHook.mk conn_id
              (FileService.mk conn.login conn.password conn.extra_dejson))) ∧
    (∀ (hook : WasbHook) (c n k tr), WasbHook.check_for_blob recordingBlobOps hook c n k tr =
      .ok (tr ++ [BlobCall.exists_ hook.connection c n k], false)) ∧
    (∀ (hook : WasbHook) (c pfx k tr), WasbHook.check_for_prefix recordingBlobOps hook c pfx k tr =
      .ok (tr ++ [BlobCall.list_blobs hook.connection c pfx 1 k], false)) ∧
    (∀ (hook : WasbHook) (c n p k tr), WasbHook.get_blob_to_path recordingBlobOps hook c n p k tr =
      .ok (tr ++ [BlobCall.get_blob_to_path hook.connection c n p k], Blob.mk n "")) ∧
    (∀ (hook : WasbHook) (c n st k tr), WasbHook.get_blob_to_stream recordingBlobOps hook c n st k tr =
      .ok (tr ++ [BlobCall.get_blob_to_stream hook.connection c n st k], Blob.mk n "")) ∧
    (∀ (hook : WasbHook) (p c n k tr), WasbHook.load_file recordingBlobOps hook p c n k tr =
      .ok (tr ++ [BlobCall.create_blob_from_path hook.connection c n p k], ())) ∧
    (∀ (hook : WasbHook) (d c n k tr), WasbHook.load_string recordingBlobOps hook d c n k tr =
      .ok (tr ++ [BlobCall.create_blob_from_text hook.connection c n d k], ())) ∧
    (∀ (hook : FileShareHook) (sh d f k tr), FileShareHook.check_for_file recordingFileOps hook sh d f k tr =
      .ok (tr ++ [FileCall.exists_ hook.connection sh d f k], false)) ∧
    (∀ (hook : FileShareHook) (sh dn fn p k tr), FileShareHook.get_file_to_path recordingFileOps hook sh dn fn p k tr =
      .ok (tr ++ [FileCall.get_file_to_path hook.connection sh dn fn p k], AzureFile.mk fn "")) ∧
    (∀ (hook : FileShareHook) (sh dn fn st k tr), FileShareHook.get_file_to_stream recordingFileOps hook sh dn fn st k tr =
      .ok (tr ++ [FileCall.get_file_to_stream hook.connection sh dn fn st k], AzureFile.mk fn "")) ∧
    (∀ (hook : FileShareHook) (p sh dn fn k tr), FileShareHook.load_file recordingFileOps hook p sh dn fn k tr =
      .ok (tr ++ [FileCall.create_file_from_path hook.connection sh dn fn p k], ())) ∧
    (∀ (hook : FileShareHook) (d sh dn fn k tr), FileShareHook.load_string recordingFileOps hook d sh dn fn k tr =
      .ok (tr ++ [FileCall.create_file_from_text hook.connection sh dn fn d k], ())) := by
  refine ⟨?_, ?_, fun _ _ _ _ _ => rfl, fun _ _ _ _ _ => rfl, fun _ _ _ _ _ _ => rfl,
          fun _ _ _ _ _ _ => rfl, fun _ _ _ _ _ _ => rfl, fun _ _ _ _ _ _ => rfl,
          fun _ _ _ _ _ _ => rfl, fun _ _ _ _ _ _ _ => rfl, fun _ _ _ _ _ _ _ => rfl,
          fun _ _ _ _ _ _ _ => rfl, fun _ _ _ _ _ _ _ => rfl⟩
  · simp [WasbHook.init, WasbHook.get_conn, get_connection, h]
  · simp [FileShareHook.init, FileShareHook.get_conn, get_connection, h]

/-- Witness for C4 at a concrete registry holding the default identifier. -/
theorem construct_binds_client_once_witness :
    WasbHook.init [("wasb_default", Connection.mk "acct" "key" [("sas_token", "tok")])] "wasb_default" =
      ([InitEvent.lookup "wasb_default",
        InitEvent.build_client "acct" "key" [("sas_token", "tok")]],
       .ok (WasbHook.mk "wasb_default" (BlockBlobService.mk "acct" "key" [("sas_token", "tok")]))) :=
  (construct_binds_client_once
    [("wasb_default", Connection.mk "acct" "key" [("sas_token", "tok")])]
    "wasb_default" (Connection.mk "acct" "key" [("sas_token", "tok")]) (by decide)).1

/-- C5: for an identifier not present in the registry, construction of
either adapter fails with the lookup error for that identifier, and the
event trace is the lone lookup: no vendor client constructor is ever
invoked (no `build_client` event), and no adapter instance exists. -/
theorem unregistered_conn_fails_before_client (registry : List (String × Connection))
    (conn_id : String) (h : registry.lookup conn_id = none) :
    WasbHook.init registry conn_id =
      ([InitEvent.lookup conn_id], .error (LookupErr.connNotFound conn_id)) ∧
    FileShareHook.init registry conn_id =
      ([InitEvent.lookup conn_id], .error (LookupErr.connNotFound conn_id)) := by
  constructor
  · simp [WasbHook.init, WasbHook.get_conn, get_connection, h]
  · simp [FileShareHook.init, FileShareHook.get_conn, get_connection, h]

/-- Witness for C5 on the empty registry. -/
theorem unregistered_conn_fails_before_client_witness :
    WasbHook.init [] "missing_conn" =
      ([InitEvent.lookup "missing_conn"], .error (LookupErr.connNotFound "missing_conn")) ∧
    FileShareHook.init [] "missing_conn" =
      ([InitEvent.lookup "missing_conn"], .error (LookupErr.connNotFound "missing_conn")) :=
  unregistered_conn_fails_before_client [] "missing_conn" rfl

/-- C6: no adapter operation catches, wraps, translates or retries a
vendor error: for every error value `e` of an arbitrary error type, every
operation of both adapters run against the error-raising vendor stub
returns exactly `.error e`; and against the recording stub every
operation appends exactly one vendor call to the trace (one vendor
request per adapter call). -/
theorem vendor_errors_propagate_unchanged {ε : Type} (e : ε)
    (self : WasbHook) (fself : FileShareHook)
    (c n p d pfx st sh dn fn : String) (dir f : Option String)
    (k : Kwargs) (tb : List BlobCall) (tf : List FileCall) :
    (WasbHook.check_for_blob (raisingBlobOps e) self c n k () = .error e ∧
     WasbHook.check_for_prefix (raisingBlobOps e) self c pfx k () = .error e ∧
     WasbHook.get_blob_to_path (raisingBlobOps e) self c n p k () = .error e ∧
     WasbHook.get_blob_to_stream (raisingBlobOps e) self c n st k () = .error e ∧
     WasbHook.load_file (raisingBlobOps e) self p c n k () = .error e ∧
     WasbHook.load_string (raisingBlobOps e) self d c n k () = .error e ∧
     FileShareHook.check_for_file (raisingFileOps e) fself sh dir f k () = .error e ∧
     FileShareHook.get_file_to_path (raisingFileOps e) fself sh dn fn p k () = .error e ∧
     FileShareHook.get_file_to_stream (raisingFileOps e) fself sh dn fn st k () = .error e ∧
     FileShareHook.load_file (raisingFileOps e) fself p sh dn fn k () = .error e ∧
     FileShareHook.load_string (raisingFileOps e) fself d sh dn fn k () = .error e) ∧
    ((WasbHook.check_for_blob recordingBlobOps self c n k tb =
        .ok (tb ++ [BlobCall.exists_ self.connection c n k], false)) ∧
     (WasbHook.check_for_prefix recordingBlobOps self c pfx k tb =
        .ok (tb ++ [BlobCall.list_blobs self.connection c pfx 1 k], false)) ∧
     (WasbHook.get_blob_to_path recordingBlobOps self c n p k tb =
        .ok (tb ++ [BlobCall.get_blob_to_path self.connection c n p k], Blob.mk n "")) ∧
     (WasbHook.get_blob_to_stream recordingBlobOps self c n st k tb =
        .ok (tb ++ [BlobCall.get_blob_to_stream self.connection c n st k], Blob.mk n "")) ∧
     (WasbHook.load_file recordingBlobOps self p c n k tb =
        .ok (tb ++ [BlobCall.create_blob_from_path self.connection c n p k], ())) ∧
     (WasbHook.load_string recordingBlobOps self d c n k tb =
        .ok (tb ++ [BlobCall.create_blob_from_text self.connection c n d k], ())) ∧
     (FileShareHook.check_for_file recordingFileOps fself sh dir f k tf =
        .ok (tf ++ [FileCall.exists_ fself.connection sh dir f k], false)) ∧
     (FileShareHook.get_file_to_path recordingFileOps fself sh dn fn p k tf =
        .ok (tf ++ [FileCall.get_file_to_path fself.connection sh dn fn p k], AzureFile.mk fn "")) ∧
     (FileShareHook.get_file_to_stream recordingFileOps fself sh dn fn st k tf =
        .ok (tf ++ [FileCall.get_file_to_stream fself.connection sh dn fn st k], AzureFile.mk fn "")) ∧
     (FileShareHook.load_file recordingFileOps fself p sh dn fn k tf =
        .ok (tf ++ [FileCall.create_file_from_path fself.connection sh dn fn p k], ())) ∧
     (FileShareHook.load_string recordingFileOps fself d sh dn fn k tf =
        .ok (tf ++ [FileCall.create_file_from_text fself.connection sh dn fn d k], ()))) :=
  ⟨⟨rfl, rfl, rfl, rfl, rfl, rfl, rfl, rfl, rfl, rfl, rfl⟩,
   ⟨rfl, rfl, rfl, rfl, rfl, rfl, rfl, rfl, rfl, rfl, rfl⟩⟩

/-- C7: `check_for_file(s, d, f, k)` forwards exactly `(s, d, f)` (share,
optional directory, optional file) and the options to the vendor `exists`
call — recorded verbatim on the recording stub — and, for an arbitrary
vendor `exists` implementation, returns that implementation's result
unchanged: which existence check happens is decided entirely by the
vendor client. -/
theorem check_for_file_forwards_verbatim {ε σ : Type} (fself : FileShareHook)
    (sh : String) (dir f : Option String) (k : Kwargs) (tf : List FileCall)
    (existsImpl : FileService → String → Option String → Option String → Kwargs → σ → Except ε (σ × Bool))
    (rest : FileServiceOps ε σ) (s : σ) :
    FileShareHook.check_for_file recordingFileOps fself sh dir f k tf =
      .ok (tf ++ [FileCall.exists_ fself.connection sh dir f k], false) ∧
    FileShareHook.check_for_file
      (FileServiceOps.mk existsImpl rest.get_file_to_path rest.get_file_to_stream
        rest.create_file_from_path rest.create_file_from_text)
      fself sh dir f k s = existsImpl fself.connection sh dir f k s :=
  ⟨rfl, rfl⟩

/-- C8: on the store model, `check_for_blob c n` is `false` when no stored
object has exactly the name `(c, n)`, and after a successful `load_file`
or `load_string` of that exact name it is `true`. -/
theorem check_for_blob_after_upload (self : WasbHook) (c n p d : String)
    (k k1 : Kwargs) (s : AzureState) :
    (s.blobs.lookup (c, n) = none →
      WasbHook.check_for_blob storeBlobOps self c n k s = .ok (s, false)) ∧
    (∀ (s1 : AzureState) (u : Unit),
      WasbHook.load_file storeBlobOps self p c n k1 s = .ok (s1, u) →
      WasbHook.check_for_blob storeBlobOps self c n k s1 = .ok (s1, true)) ∧
    (∀ (s1 : AzureState) (u : Unit),
      WasbHook.load_string storeBlobOps self d c n k1 s = .ok (s1, u) →
      WasbHook.check_for_blob storeBlobOps self c n k s1 = .ok (s1, true)) := by
  refine ⟨?_, ?_, ?_⟩
  · intro h
    simp [WasbHook.check_for_blob, storeBlobOps, h]
  · intro s1 u h
    simp only [WasbHook.load_file, storeBlobOps] at h
    cases hf : s.fs.lookup p with
    | none => rw [hf] at h; cases h
    | some content =>
        rw [hf] at h
        cases h
        simp [WasbHook.check_for_blob, storeBlobOps, List.lookup]
  · intro s1 u h
    simp only [WasbHook.load_string, storeBlobOps] at h
    cases h
    simp [WasbHook.check_for_blob, storeBlobOps, List.lookup]

/-- Witness for C8: a blob name absent from the empty store is reported
absent, and present right after uploading a local file to it. -/
theorem check_for_blob_after_upload_witness :
    WasbHook.check_for_blob storeBlobOps
      (WasbHook.mk "wasb_default" (BlockBlobService.mk "acct" "key" []))
      "cont" "blob" [] (AzureState.mk [] [("/tmp/x", "data")]) =
      .ok (AzureState.mk [] [("/tmp/x", "data")], false) ∧
    WasbHook.check_for_blob storeBlobOps
      (WasbHook.mk "wasb_default" (BlockBlobService.mk "acct" "key" []))
      "cont" "blob" [] (AzureState.mk [(("cont", "blob"), "data")] [("/tmp/x", "data")]) =
      .ok (AzureState.mk [(("cont", "blob"), "data")] [("/tmp/x", "data")], true) := by
  have h := check_for_blob_after_upload
    (WasbHook.mk "wasb_default" (BlockBlobService.mk "acct" "key" []))
    "cont" "blob" "/tmp/x" "hello" [] [] (AzureState.mk [] [("/tmp/x", "data")])
  exact ⟨h.1 rfl,
         h.2.1 (AzureState.mk [(("cont", "blob"), "data")] [("/tmp/x", "data")]) () rfl⟩

/-- C9: for arbitrary vendor clients, the four upload operations discard
the vendor's return value — whatever metadata `r` the vendor create call
returns, the adapter returns `()` — while the four download operations
return the vendor call's result unchanged. -/
theorem uploads_discard_downloads_forward {ε σ ε2 σ2 : Type}
    (ops : BlobServiceOps ε σ) (fops : FileServiceOps ε2 σ2)
    (self : WasbHook) (fself : FileShareHook)
    (c n p d sh dn fn st : String) (k : Kwargs) (s : σ) (s2 : σ2) :
    (∀ (s1 : σ) (r : Blob),
      ops.create_blob_from_path self.connection c n p k s = .ok (s1, r) →
      WasbHook.load_file ops self p c n k s = .ok (s1, ())) ∧
    (∀ (s1 : σ) (r : Blob),
      ops.create_blob_from_text self.connection c n d k s = .ok (s1, r) →
      WasbHook.load_string ops self d c n k s = .ok (s1, ())) ∧
    (∀ (s1 : σ2) (r : AzureFile),
      fops.create_file_from_path fself.connection sh dn fn p k s2 = .ok (s1, r) →
      FileShareHook.load_file fops fself p sh dn fn k s2 = .ok (s1, ())) ∧
    (∀ (s1 : σ2) (r : AzureFile),
      fops.create_file_from_text fself.connection sh dn fn d k s2 = .ok (s1, r) →
      FileShareHook.load_string fops fself d sh dn fn k s2 = .ok (s1, ())) ∧
    WasbHook.get_blob_to_path ops self c n p k s =
      ops.get_blob_to_path self.connection c n p k s ∧
    WasbHook.get_blob_to_stream ops self c n st k s =
      ops.get_blob_to_stream self.connection c n st k s ∧
    FileShareHook.get_file_to_path fops fself sh dn fn p k s2 =
      fops.get_file_to_path fself.connection sh dn fn p k s2 ∧
    FileShareHook.get_file_to_stream fops fself sh dn fn st k s2 =
      fops.get_file_to_stream fself.connection sh dn fn st k s2 := by
  refine ⟨?_, ?_, ?_, ?_, rfl, rfl, rfl, rfl⟩
  · intro s1 r h
    unfold WasbHook.load_file
    rw [h]
  · intro s1 r h
    unfold WasbHook.load_string
    rw [h]
  · intro s1 r h
    unfold FileShareHook.load_file
    rw [h]
  · intro s1 r h
    unfold FileShareHook.load_string
    rw [h]

/-- Witness for C9 on the store-model blob client and the recording
file-share client: the vendor create calls return metadata objects, the
adapter upload methods return `()`. -/
theorem uploads_discard_downloads_forward_witness :
    WasbHook.load_file storeBlobOps
      (WasbHook.mk "wasb_default" (BlockBlobService.mk "acct" "key" []))
      "/tmp/x" "cont" "blob" [] (AzureState.mk [] [("/tmp/x", "data")]) =
      .ok (AzureState.mk [(("cont", "blob"), "data")] [("/tmp/x", "data")], ()) ∧
    FileShareHook.load_file recordingFileOps
      (FileShareHook.mk "wasb_default" (FileService.mk "acct" "key" []))
      "/tmp/x" "share" "dir" "file" [] [] =
      .ok ([FileCall.create_file_from_path (FileService.mk "acct" "key" [])
              "share" "dir" "file" "/tmp/x" []], ()) := by
  have h := uploads_discard_downloads_forward storeBlobOps recordingFileOps
    (WasbHook.mk "wasb_default" (BlockBlobService.mk "acct" "key" []))
    (FileShareHook.mk "wasb_default" (FileService.mk "acct" "key" []))
    "cont" "blob" "/tmp/x" "hello" "share" "dir" "file" "stream" []
    (AzureState.mk [] [("/tmp/x", "data")]) []
  exact ⟨h.1 (AzureState.mk [(("cont", "blob"), "data")] [("/tmp/x", "data")]) (Blob.mk "blob" "data") rfl,
         h.2.2.1 [FileCall.create_file_from_path (FileService.mk "acct" "key" [])
                    "share" "dir" "file" "/tmp/x" []] (AzureFile.mk "file" "") rfl⟩

/-- C10: a no-argument construction of either adapter resolves the same
default identifier `wasb_default`: the construction event traces of the
two variants are identical on every registry (same lookup of the same
record, same constructor arguments), they begin with the lookup of
`wasb_default`, and a successfully constructed adapter of either variant
carries `conn_id = "wasb_default"`. -/
theorem default_conn_id_shared (registry : List (String × Connection)) :
    (WasbHook.initDefault registry).1 = (FileShareHook.initDefault registry).1 ∧
    (WasbHook.initDefault registry).1.head? = some (InitEvent.lookup "wasb_default") ∧
    (FileShareHook.initDefault registry).1.head? = some (InitEvent.lookup "wasb_default") ∧
    (∀ hook : WasbHook, (WasbHook.initDefault registry).2 = .ok hook →
      hook.conn_id = "wasb_default") ∧
    (∀ hook : FileShareHook, (FileShareHook.initDefault registry).2 = .ok hook →
      hook.conn_id = "wasb_default") := by
  cases hl : registry.lookup "wasb_default" with
  | none =>
      simp [WasbHook.initDefault, WasbHook.init, WasbHook.get_conn,
            FileShareHook.initDefault, FileShareHook.init, FileShareHook.get_conn,
            get_connection, hl]
  | some conn =>
      simp [WasbHook.initDefault, WasbHook.init, WasbHook.get_conn,
            FileShareHook.initDefault, FileShareHook.init, FileShareHook.get_conn,
            get_connection, hl]

/-- Witness for C10 on a one-entry registry holding `wasb_default`. -/
theorem default_conn_id_shared_witness :
    (WasbHook.initDefault [("wasb_default", Connection.mk "acct" "key" [])]).1 =
      (FileShareHook.initDefault [("wasb_default", Connection.mk "acct" "key" [])]).1 ∧
    (WasbHook.mk "wasb_default" (BlockBlobService.mk "acct" "key" [])).conn_id = "wasb_default" ∧
    (FileShareHook.mk "wasb_default" (FileService.mk "acct" "key" [])).conn_id = "wasb_default" := by
  have h := default_conn_id_shared [("wasb_default", Connection.mk "acct" "key" [])]
  exact ⟨h.1,
         h.2.2.2.1 (WasbHook.mk "wasb_default" (BlockBlobService.mk "acct" "key" [])) rfl,
         h.2.2.2.2 (FileShareHook.mk "wasb_default" (FileService.mk "acct" "key" [])) rfl⟩
